import Mathlib

/-
  Verification of the AD569x DAC driver (src/src/lib.rs).

  The driver talks to the chip over an I2C transport.  We embed the
  transport shallowly: an `I2CState` carries an oracle of responses
  (one `Except E Unit` per successive bus write, defaulting to success
  when the oracle is exhausted) and records the trace of addressed
  writes that have been issued.  Each driver method of the Rust
  `impl AdafruitAD569x` becomes a function from the driver value to a
  result paired with the updated driver value, mirroring `&mut self`.
-/

namespace AD569x

/-- AD569x commands (Rust enum `Command`). -/
inductive Command where
  | NOP
  | WriteInput
  | UpdateDAC
  | WriteDACAndInput
  | WriteControl
deriving DecidableEq

/-- Integer discriminant of a command, as in the Rust source
(`command as u8`). -/
def Command.toU8 : Command → Nat
  | .NOP => 0x00
  | .WriteInput => 0x10
  | .UpdateDAC => 0x20
  | .WriteDACAndInput => 0x30
  | .WriteControl => 0x40

/-- AD569x operating modes (Rust enum `OperatingMode`). -/
inductive OperatingMode where
  | NormalMode
  | Output1kImpedance
  | Output100kImpedance
  | OutputTristate
deriving DecidableEq

/-- Integer discriminant of an operating mode, as in the Rust source
(`mode as u16`). -/
def OperatingMode.toU16 : OperatingMode → Nat
  | .NormalMode => 0x00
  | .Output1kImpedance => 0x01
  | .Output100kImpedance => 0x02
  | .OutputTristate => 0x03

/-- Shallow embedding of the I2C bus collaborator: `responses` is the
oracle giving the outcome of each successive write (an exhausted oracle
answers success), `trace` records every addressed write issued so far,
as a pair of the 7-bit device address and the bytes written. -/
structure I2CState (E : Type) where
  responses : List (Except E Unit)
  trace : List (Nat × List Nat)

/-- One addressed blocking bus write (`I2c::write`): consumes the next
oracle response and appends the frame to the trace. -/
def I2CState.write {E : Type} (s : I2CState E) (addr : Nat) (bytes : List Nat) :
    Except E Unit × I2CState E :=
  (s.responses.headD (.ok ()), ⟨s.responses.tail, s.trace ++ [(addr, bytes)]⟩)

/-- The driver handle (Rust struct `AdafruitAD569x`): owns the
transport and the device address (a `u8` in the source). -/
structure AdafruitAD569x (E : Type) where
  i2c : I2CState E
  addr : Nat

/-- Rust `AdafruitAD569x::new`: stores the transport and address. -/
def AdafruitAD569x.new {E : Type} (i2c : I2CState E) (addr : Nat) :
    AdafruitAD569x E :=
  ⟨i2c, addr⟩

/-- Rust `AdafruitAD569x::write` (private): splits the 16-bit `data`
big-endian (`u16::to_be_bytes`) and issues one bus write of
`[command as u8, high_byte, low_byte]` to the stored address.  `data`
is a `u16` in the source, modelled as a natural reduced mod 2^16. -/
def AdafruitAD569x.write {E : Type} (self : AdafruitAD569x E)
    (command : Command) (data : Nat) : Except E Unit × AdafruitAD569x E :=
  let high_byte := (data % 65536) / 256
  let low_byte := data % 256
  let r := self.i2c.write self.addr [command.toU8, high_byte, low_byte]
  (r.1, ⟨r.2, self.addr⟩)

/-- Rust `AdafruitAD569x::write_dac`: write a 16-bit value to the
input register. -/
def AdafruitAD569x.write_dac {E : Type} (self : AdafruitAD569x E)
    (value : Nat) : Except E Unit × AdafruitAD569x E :=
  self.write .WriteInput value

/-- Rust `AdafruitAD569x::update_dac`: update the DAC register from
the input register. -/
def AdafruitAD569x.update_dac {E : Type} (self : AdafruitAD569x E) :
    Except E Unit × AdafruitAD569x E :=
  self.write .UpdateDAC 0x00

/-- Rust `AdafruitAD569x::write_update_dac`: write the input register
and update the DAC register in one operation. -/
def AdafruitAD569x.write_update_dac {E : Type} (self : AdafruitAD569x E)
    (value : Nat) : Except E Unit × AdafruitAD569x E :=
  self.write .WriteDACAndInput value

/-- Rust `AdafruitAD569x::reset`: write 0x8000 to the control
register. -/
def AdafruitAD569x.reset {E : Type} (self : AdafruitAD569x E) :
    Except E Unit × AdafruitAD569x E :=
  self.write .WriteControl 0x8000

/-- Rust `AdafruitAD569x::set_mode`: pack mode, reference-enable and
gain into the control-register payload
`0x0u16 | ((mode as u16) << 13) | ((enable_ref as u16) << 12) | (gain_2x as u16) << 11`
and write it to the control register.  Every u16 shift is reduced
mod 2^16. -/
def AdafruitAD569x.set_mode {E : Type} (self : AdafruitAD569x E)
    (mode : OperatingMode) (enable_ref : Bool) (gain_2x : Bool) :
    Except E Unit × AdafruitAD569x E :=
  let data := (0x0 : Nat) ||| ((mode.toU16 <<< 13) % 65536) |||
      ((enable_ref.toNat <<< 12) % 65536) ||| ((gain_2x.toNat <<< 11) % 65536)
  self.write .WriteControl data

/-- Rust `AdafruitAD569x::begin`: `self.reset()?` then
`self.set_mode(NormalMode, true, false)?` then `Ok(())`; the `?`
operator returns the first error and skips the rest. -/
def AdafruitAD569x.begin {E : Type} (self : AdafruitAD569x E) :
    Except E Unit × AdafruitAD569x E :=
  match self.reset with
  | (.error e, s) => (.error e, s)
  | (.ok _, s) =>
    match s.set_mode .NormalMode true false with
    | (.error e, s2) => (.error e, s2)
    | (.ok _, s2) => (.ok (), s2)

/-- A concrete driver handle used by witnesses and counterexamples:
device address 0x62, empty trace, transport that fails the first write
with error 7. -/
def d0 : AdafruitAD569x Nat :=
  ⟨⟨[.error 7], []⟩, 0x62⟩

/-- A concrete driver handle whose transport always succeeds. -/
def dOk : AdafruitAD569x Nat :=
  ⟨⟨[], []⟩, 0x62⟩

/-- Unfolding lemma for `begin`: the result and final state of `begin`
as a function of the first two oracle responses. -/
theorem begin_unfold {E : Type} (d : AdafruitAD569x E) :
    d.begin =
      match d.i2c.responses.headD (.ok ()) with
      | .error e =>
        (.error e,
         ⟨⟨d.i2c.responses.tail, d.i2c.trace ++ [(d.addr, [0x40, 0x80, 0x00])]⟩,
          d.addr⟩)
      | .ok _ =>
        ((match d.i2c.responses.tail.headD (.ok ()) with
          | .error e => .error e
          | .ok _ => .ok ()),
         ⟨⟨d.i2c.responses.tail.tail,
           d.i2c.trace ++ [(d.addr, [0x40, 0x80, 0x00]), (d.addr, [0x40, 0x10, 0x00])]⟩,
          d.addr⟩) := by
  obtain ⟨⟨rs, tr⟩, a⟩ := d
  cases rs with
  | nil =>
    norm_num [AdafruitAD569x.begin, AdafruitAD569x.reset, AdafruitAD569x.set_mode,
      AdafruitAD569x.write, I2CState.write, Command.toU8, OperatingMode.toU16, Nat.shiftLeft_eq]
  | cons r rest =>
    cases r with
    | error e =>
      norm_num [AdafruitAD569x.begin, AdafruitAD569x.reset, AdafruitAD569x.set_mode,
        AdafruitAD569x.write, I2CState.write, Command.toU8, OperatingMode.toU16, Nat.shiftLeft_eq]
    | ok u =>
      cases rest with
      | nil =>
        norm_num [AdafruitAD569x.begin, AdafruitAD569x.reset, AdafruitAD569x.set_mode,
          AdafruitAD569x.write, I2CState.write, Command.toU8, OperatingMode.toU16, Nat.shiftLeft_eq]
      | cons r2 rest2 =>
        cases r2 <;>
          norm_num [AdafruitAD569x.begin, AdafruitAD569x.reset, AdafruitAD569x.set_mode,
            AdafruitAD569x.write, I2CState.write, Command.toU8, OperatingMode.toU16, Nat.shiftLeft_eq]

/-- C1: for every operating mode and every pair of booleans,
`set_mode` issues exactly one transport write of the frame
`[0x40, high p, low p]` where
`p = (mode_code <<< 13) ||| (enable_ref <<< 12) ||| (gain_2x <<< 11)`;
bit 15 and bits 10-0 of `p` are always zero, and
`set_mode NormalMode true false` yields the frame `[0x40, 0x10, 0x00]`. -/
theorem set_mode_frame (E : Type) (d : AdafruitAD569x E) (m : OperatingMode)
    (enable_ref gain_2x : Bool) :
    (d.set_mode m enable_ref gain_2x).2.i2c.trace =
      d.i2c.trace ++ [(d.addr,
        [0x40,
         ((m.toU16 <<< 13) ||| (enable_ref.toNat <<< 12) ||| (gain_2x.toNat <<< 11)) / 256,
         ((m.toU16 <<< 13) ||| (enable_ref.toNat <<< 12) ||| (gain_2x.toNat <<< 11)) % 256])]
    ∧ ((m.toU16 <<< 13) ||| (enable_ref.toNat <<< 12) ||| (gain_2x.toNat <<< 11)) % 2 ^ 11 = 0
    ∧ ((m.toU16 <<< 13) ||| (enable_ref.toNat <<< 12) ||| (gain_2x.toNat <<< 11)) < 2 ^ 15
    ∧ (d.set_mode .NormalMode true false).2.i2c.trace =
        d.i2c.trace ++ [(d.addr, [0x40, 0x10, 0x00])] := by
  cases m <;> cases enable_ref <;> cases gain_2x <;>
    exact ⟨by simp [AdafruitAD569x.set_mode, AdafruitAD569x.write, I2CState.write,
        Command.toU8, OperatingMode.toU16],
      by decide, by decide,
      by simp [AdafruitAD569x.set_mode, AdafruitAD569x.write, I2CState.write,
        Command.toU8, OperatingMode.toU16]⟩

/-- C2: `begin` issues the reset frame `[0x40, 0x80, 0x00]` first; if
that write fails with `e`, no second write is issued and `begin`
returns exactly `e`; if it succeeds, the configure frame
`[0x40, 0x10, 0x00]` is issued next, so exactly two writes happen in
order. -/
theorem begin_spec (E : Type) (d : AdafruitAD569x E) :
    (∀ e : E, d.i2c.responses.headD (.ok ()) = .error e →
      d.begin.1 = .error e ∧
      d.begin.2.i2c.trace = d.i2c.trace ++ [(d.addr, [0x40, 0x80, 0x00])])
    ∧ (d.i2c.responses.headD (.ok ()) = .ok () →
      d.begin.2.i2c.trace =
        d.i2c.trace ++ [(d.addr, [0x40, 0x80, 0x00]), (d.addr, [0x40, 0x10, 0x00])]) := by
  constructor
  · intro e he
    rw [begin_unfold, he]
    exact ⟨rfl, rfl⟩
  · intro hok
    rw [begin_unfold, hok]

/-- Witness for C2: on a transport whose first write fails with error
7, `begin` returns error 7 and issues only the reset frame. -/
theorem begin_spec_witness :
    d0.begin.1 = .error 7 ∧
    d0.begin.2.i2c.trace = [(0x62, [0x40, 0x80, 0x00])] :=
  (begin_spec Nat d0).1 7 rfl

/-- C3: for every 16-bit value, `write_dac` issues exactly one
transport write of `[0x10, high value, low value]` (big-endian
split). -/
theorem write_dac_frame (E : Type) (d : AdafruitAD569x E) (value : Nat)
    (h : value < 65536) :
    (d.write_dac value).2.i2c.trace =
      d.i2c.trace ++ [(d.addr, [0x10, value / 256, value % 256])] := by
  simp [AdafruitAD569x.write_dac, AdafruitAD569x.write, I2CState.write,
    Command.toU8, Nat.mod_eq_of_lt h]

/-- Witness for C3 at value 0xABCD. -/
theorem write_dac_frame_witness :
    (dOk.write_dac 0xABCD).2.i2c.trace = [(0x62, [0x10, 0xAB, 0xCD])] :=
  write_dac_frame Nat dOk 0xABCD (by decide)

/-- C4: for every 16-bit value, `write_update_dac` issues exactly one
transport write of `[0x30, high value, low value]` (big-endian
split). -/
theorem write_update_dac_frame (E : Type) (d : AdafruitAD569x E) (value : Nat)
    (h : value < 65536) :
    (d.write_update_dac value).2.i2c.trace =
      d.i2c.trace ++ [(d.addr, [0x30, value / 256, value % 256])] := by
  simp [AdafruitAD569x.write_update_dac, AdafruitAD569x.write, I2CState.write,
    Command.toU8, Nat.mod_eq_of_lt h]

/-- Witness for C4 at value 0x1234. -/
theorem write_update_dac_frame_witness :
    (dOk.write_update_dac 0x1234).2.i2c.trace = [(0x62, [0x30, 0x12, 0x34])] :=
  write_update_dac_frame Nat dOk 0x1234 (by decide)

/-- C5: `update_dac` issues exactly one transport write of
`[0x20, 0x00, 0x00]`, for every driver state (hence independent of any
prior operations on the handle). -/
theorem update_dac_frame (E : Type) (d : AdafruitAD569x E) :
    d.update_dac.2.i2c.trace = d.i2c.trace ++ [(d.addr, [0x20, 0x00, 0x00])] := by
  simp [AdafruitAD569x.update_dac, AdafruitAD569x.write, I2CState.write,
    Command.toU8]

/-- C6: `reset` issues exactly one transport write of
`[0x40, 0x80, 0x00]`, i.e. a WriteControl command with payload
0x8000. -/
theorem reset_frame (E : Type) (d : AdafruitAD569x E) :
    d.reset.2.i2c.trace = d.i2c.trace ++ [(d.addr, [0x40, 0x80, 0x00])] := by
  simp [AdafruitAD569x.reset, AdafruitAD569x.write, I2CState.write,
    Command.toU8]

/-- C7: every public operation returns exactly the transport's
response, unwrapped and untranslated: an error `e` from the bus write
is returned as `e`, a successful write yields success with no value.
For `begin` the result is the first write's error if any, otherwise
the second write's response. -/
theorem result_propagation (E : Type) (d : AdafruitAD569x E) (value : Nat)
    (m : OperatingMode) (enable_ref gain_2x : Bool) :
    (d.write_dac value).1 = d.i2c.responses.headD (.ok ())
    ∧ d.update_dac.1 = d.i2c.responses.headD (.ok ())
    ∧ (d.write_update_dac value).1 = d.i2c.responses.headD (.ok ())
    ∧ d.reset.1 = d.i2c.responses.headD (.ok ())
    ∧ (d.set_mode m enable_ref gain_2x).1 = d.i2c.responses.headD (.ok ())
    ∧ d.begin.1 = (match d.i2c.responses.headD (.ok ()) with
        | .error e => .error e
        | .ok _ => d.i2c.responses.tail.headD (.ok ())) := by
  refine ⟨rfl, rfl, rfl, rfl, rfl, ?_⟩
  rw [begin_unfold]
  cases h : d.i2c.responses.headD (.ok ()) with
  | error e => rfl
  | ok u =>
    cases h2 : d.i2c.responses.tail.headD (.ok ()) with
    | error e => rfl
    | ok u2 => rfl

/-- C8 counterexample: on a transport whose first write fails, `begin`
issues one transport write, not exactly two as claimed. -/
theorem begin_single_write_cex :
    ¬ d0.begin.2.i2c.trace.length = d0.i2c.trace.length + 2 := by decide

/-- C8 amended: `write_dac`, `update_dac`, `write_update_dac`, `reset`
and `set_mode` each issue exactly one transport write; `begin` issues
at most two: exactly two when its first write succeeds and exactly one
when it fails. -/
theorem write_counts (E : Type) (d : AdafruitAD569x E) (value : Nat)
    (m : OperatingMode) (enable_ref gain_2x : Bool) :
    (d.write_dac value).2.i2c.trace.length = d.i2c.trace.length + 1
    ∧ d.update_dac.2.i2c.trace.length = d.i2c.trace.length + 1
    ∧ (d.write_update_dac value).2.i2c.trace.length = d.i2c.trace.length + 1
    ∧ d.reset.2.i2c.trace.length = d.i2c.trace.length + 1
    ∧ (d.set_mode m enable_ref gain_2x).2.i2c.trace.length = d.i2c.trace.length + 1
    ∧ d.begin.2.i2c.trace.length = d.i2c.trace.length +
        (match d.i2c.responses.headD (.ok ()) with
         | .ok _ => 2
         | .error _ => 1) := by
  refine ⟨?_, ?_, ?_, ?_, ?_, ?_⟩
  · simp [AdafruitAD569x.write_dac, AdafruitAD569x.write, I2CState.write]
  · simp [AdafruitAD569x.update_dac, AdafruitAD569x.write, I2CState.write]
  · simp [AdafruitAD569x.write_update_dac, AdafruitAD569x.write, I2CState.write]
  · simp [AdafruitAD569x.reset, AdafruitAD569x.write, I2CState.write]
  · simp [AdafruitAD569x.set_mode, AdafruitAD569x.write, I2CState.write]
  · rw [begin_unfold]
    cases h : d.i2c.responses.headD (.ok ()) <;> simp

/-- C9: `new` stores the given transport and address unchanged (every
address below 256, the `u8` range, is accepted as is) and issues no
transport write: the trace is untouched. -/
theorem new_spec (E : Type) (i2c : I2CState E) (a : Nat) (h : a < 256) :
    (AdafruitAD569x.new i2c a).addr = a ∧
    (AdafruitAD569x.new i2c a).i2c = i2c ∧
    (AdafruitAD569x.new i2c a).i2c.trace = i2c.trace :=
  ⟨rfl, rfl, rfl⟩

/-- Witness for C9 at address 200. -/
theorem new_spec_witness :
    (AdafruitAD569x.new (⟨[], []⟩ : I2CState Nat) 200).addr = 200 ∧
    (AdafruitAD569x.new (⟨[], []⟩ : I2CState Nat) 200).i2c = ⟨[], []⟩ ∧
    (AdafruitAD569x.new (⟨[], []⟩ : I2CState Nat) 200).i2c.trace = [] :=
  new_spec Nat ⟨[], []⟩ 200 (by decide)

/-- C10: no operation modifies the stored device address, and every
frame a public operation appends to the trace targets exactly the
stored address. -/
theorem addr_invariant (E : Type) (d : AdafruitAD569x E) (value : Nat)
    (m : OperatingMode) (enable_ref gain_2x : Bool) :
    ((d.write_dac value).2.addr = d.addr
     ∧ d.update_dac.2.addr = d.addr
     ∧ (d.write_update_dac value).2.addr = d.addr
     ∧ d.reset.2.addr = d.addr
     ∧ (d.set_mode m enable_ref gain_2x).2.addr = d.addr
     ∧ d.begin.2.addr = d.addr)
    ∧ (∀ f ∈ (d.write_dac value).2.i2c.trace.drop d.i2c.trace.length, f.1 = d.addr)
    ∧ (∀ f ∈ d.update_dac.2.i2c.trace.drop d.i2c.trace.length, f.1 = d.addr)
    ∧ (∀ f ∈ (d.write_update_dac value).2.i2c.trace.drop d.i2c.trace.length, f.1 = d.addr)
    ∧ (∀ f ∈ d.reset.2.i2c.trace.drop d.i2c.trace.length, f.1 = d.addr)
    ∧ (∀ f ∈ (d.set_mode m enable_ref gain_2x).2.i2c.trace.drop d.i2c.trace.length,
        f.1 = d.addr)
    ∧ (∀ f ∈ d.begin.2.i2c.trace.drop d.i2c.trace.length, f.1 = d.addr) := by
  refine ⟨⟨rfl, rfl, rfl, rfl, rfl, ?_⟩, ?_, ?_, ?_, ?_, ?_, ?_⟩
  · rw [begin_unfold]
    cases h : d.i2c.responses.headD (.ok ()) <;> rfl
  · intro f hf
    simp [AdafruitAD569x.write_dac, AdafruitAD569x.write, I2CState.write,
      List.drop_left] at hf
    simp [hf]
  · intro f hf
    simp [AdafruitAD569x.update_dac, AdafruitAD569x.write, I2CState.write,
      List.drop_left] at hf
    simp [hf]
  · intro f hf
    simp [AdafruitAD569x.write_update_dac, AdafruitAD569x.write, I2CState.write,
      List.drop_left] at hf
    simp [hf]
  · intro f hf
    simp [AdafruitAD569x.reset, AdafruitAD569x.write, I2CState.write,
      List.drop_left] at hf
    simp [hf]
  · intro f hf
    simp [AdafruitAD569x.set_mode, AdafruitAD569x.write, I2CState.write,
      List.drop_left] at hf
    simp [hf]
  · intro f hf
    rw [begin_unfold] at hf
    cases h : d.i2c.responses.headD (.ok ()) with
    | error e =>
      rw [h] at hf
      simp [List.drop_left] at hf
      simp [hf]
    | ok u =>
      rw [h] at hf
      simp [List.drop_left] at hf
      rcases hf with hf | hf <;> simp [hf]

/-- Witness for C10: the single frame `write_dac 0` appends on a fresh
handle targets the stored address 0x62. -/
theorem addr_invariant_witness :
    ((0x62 : Nat), [(0x10 : Nat), 0x00, 0x00]).1 = dOk.addr :=
  (addr_invariant Nat dOk 0 .NormalMode true false).2.1
    (0x62, [0x10, 0x00, 0x00]) (by decide)

end AD569x
